import Mathlib

/-!
Shallow embedding of the RAG retrieval subsystem of the ai-chatbot repository.

Embedded source files:
* `src/app/api/rag/route.ts` — the inline `/api/rag` POST handler;
* `lib/rag.ts` (provided unnamed) — the `getRAGContext` library function;
* `src/app/(chat)/api/chat/route.ts` — the chat endpoint's RAG invocation
  (lines 170–212) and the `streamText` call (lines 219–221).

Numbers that are IEEE floats in the source are modelled as rationals (`ℚ`);
the cosine-similarity utility, whose implementation lives in `lib/utils.ts`
and is not part of the provided sources, is modelled over the reals from the
spec's formula. Remote calls (the embedding API, the corpus file read) are
modelled as explicit `Except`-valued dependencies passed to the pipeline.
-/

/-- JSON values, as far as the question field is concerned: the handlers test
`!question || typeof question !== 'string'`, so we need strings and a sample
of non-string values. -/
inductive JsonValue where
  | str (s : String)
  | num (n : ℚ)
  | bool (b : Bool)
  | null
deriving DecidableEq, Repr

/-- The check `!question || typeof question !== 'string'` from both handlers:
returns the question string when it passes, `none` when the request is
rejected.  A string passes iff it is non-empty (the empty string is falsy);
every non-string value is rejected by the `typeof` test. -/
def jsValidQuestion : JsonValue → Option String
  | JsonValue.str s => if s = "" then none else some s
  | _ => none

/-- The `SyllabusChunk` interface: `{chunk_id: number, text: string,
embedding: number[]}`. -/
structure SyllabusChunk where
  chunk_id : Int
  text : String
  embedding : List ℚ
deriving DecidableEq, Repr

/-- A chunk after the spread `{...chunk, similarity: ...}`: the chunk's fields
plus its similarity score. -/
structure ScoredChunk where
  chunk_id : Int
  text : String
  embedding : List ℚ
  similarity : ℚ
deriving DecidableEq, Repr

/-- The shape produced by `topChunks.map(({ chunk_id, text, similarity }) =>
({ chunk_id, text, similarity }))`: the embedding vector is stripped. -/
structure TopChunk where
  chunk_id : Int
  text : String
  similarity : ℚ
deriving DecidableEq, Repr

/-- The destructuring `({ chunk_id, text, similarity }) => ({ chunk_id, text,
similarity })` applied to one scored chunk. -/
def stripEmbedding (c : ScoredChunk) : TopChunk :=
  { chunk_id := c.chunk_id, text := c.text, similarity := c.similarity }

/-- The success body `{ topChunks, context, question }` returned by both
implementations. -/
structure RagSuccess where
  topChunks : List TopChunk
  context : String
  question : String
deriving DecidableEq, Repr

/-- A `NextResponse.json` result of the route handler: either the 200 success
body or `{ error: message }` with an explicit status. -/
inductive RouteResponse where
  | ok (body : RagSuccess)
  | err (message : String) (status : Nat)
deriving DecidableEq, Repr

/-- The process environment as the pipeline reads it: `process.env.OPENAI_API_KEY`
is either absent or a string. -/
structure Env where
  apiKey : Option String
deriving DecidableEq, Repr

/-- Truthiness of `process.env.OPENAI_API_KEY`: present and non-empty. -/
def envKeyTruthy (e : Env) : Bool :=
  match e.apiKey with
  | none => false
  | some s => !(s == "")

/-- External dependencies of one request: the corpus file read+parse outcome,
the environment, the remote embedding service (outcome per input text), and
the `cosineSimilarity` utility imported from `lib/utils.ts`. -/
structure RagDeps where
  corpus : Except String (List SyllabusChunk)
  env : Env
  remote : String → Except String (List ℚ)
  sim : List ℚ → List ℚ → ℚ

/-- The body `{ question, topK = 4 }` after JSON parsing: `topK = none` means
the field was absent and the default 4 applies. -/
structure RagRequest where
  question : JsonValue
  topK : Option Int
deriving DecidableEq, Repr

/-- The `getEmbedding` helper (identical in both files): throws
`'OPENAI_API_KEY not set in environment'` when the key is falsy, otherwise
performs the remote embedding call. -/
def getEmbedding (env : Env) (remote : String → Except String (List ℚ))
    (text : String) : Except String (List ℚ) :=
  if envKeyTruthy env then remote text
  else Except.error "OPENAI_API_KEY not set in environment"

/-- One step of `chunks.map(chunk => ({...chunk, similarity:
cosineSimilarity(questionEmbedding, chunk.embedding)}))`. -/
def scoreChunks (sim : List ℚ → List ℚ → ℚ) (qe : List ℚ)
    (chunks : List SyllabusChunk) : List ScoredChunk :=
  chunks.map fun c =>
    { chunk_id := c.chunk_id, text := c.text, embedding := c.embedding,
      similarity := sim qe c.embedding }

/-- The comparator `(a, b) => b.similarity - a.similarity` induces this
boolean order: `a` may stay before `b` iff `b.similarity ≤ a.similarity`. -/
def simDescLe (a b : ScoredChunk) : Bool :=
  decide (b.similarity ≤ a.similarity)

/-- The call `similarities.sort((a, b) => b.similarity - a.similarity)`:
JavaScript `Array.prototype.sort` is stable (ES2019), so it is modelled by a
stable merge sort under the comparator's descending order. -/
def sortScored (l : List ScoredChunk) : List ScoredChunk :=
  l.mergeSort simDescLe

/-- JavaScript `arr.slice(0, k)`: for `k ≥ 0` the first `k` elements; for
`k < 0` the end index is `arr.length + k` clamped at 0, i.e. all but the last
`|k|` elements. -/
def jsSlice (xs : List ScoredChunk) (k : Int) : List ScoredChunk :=
  if 0 ≤ k then xs.take k.toNat
  else xs.take (xs.length - (-k).toNat)

/-- The inline POST handler of `src/app/api/rag/route.ts`, lines 30–72, with
the request body already JSON-parsed.  Validation, corpus load, embedding,
scoring, sorting, truncation, context join and embedding-stripping follow the
source line by line; the outer catch surfaces thrown errors (here: the corpus
read) as 500 with the error message. -/
def ragRoutePost (deps : RagDeps) (req : RagRequest) : RouteResponse :=
  match jsValidQuestion req.question with
  | none => RouteResponse.err "Missing or invalid question" 400
  | some question =>
    match deps.corpus with
    | Except.error m => RouteResponse.err m 500
    | Except.ok chunks =>
      match getEmbedding deps.env deps.remote question with
      | Except.error _ => RouteResponse.err "Embedding API not implemented" 500
      | Except.ok questionEmbedding =>
        let similarities := scoreChunks deps.sim questionEmbedding chunks
        let sorted := sortScored similarities
        let topChunks := jsSlice sorted ((req.topK).getD 4)
        let context := String.intercalate "\n---\n" (topChunks.map ScoredChunk.text)
        RouteResponse.ok
          { topChunks := topChunks.map stripEmbedding
            context := context
            question := question }

/-- The `getRAGContext` library function (lines 29–69 of the provided file):
the same pipeline, but every thrown error is re-thrown by the outer catch as
`RAG processing failed: <message>`; the embedding try/catch replaces the
inner error with `'Failed to get embedding for question'`. -/
def getRAGContext (deps : RagDeps) (question : JsonValue) (topK : Int) :
    Except String RagSuccess :=
  match jsValidQuestion question with
  | none => Except.error "RAG processing failed: Missing or invalid question"
  | some q =>
    match deps.corpus with
    | Except.error m => Except.error ("RAG processing failed: " ++ m)
    | Except.ok chunks =>
      match getEmbedding deps.env deps.remote q with
      | Except.error _ =>
          Except.error "RAG processing failed: Failed to get embedding for question"
      | Except.ok questionEmbedding =>
        let similarities := scoreChunks deps.sim questionEmbedding chunks
        let sorted := sortScored similarities
        let topChunks := jsSlice sorted topK
        let context := String.intercalate "\n---\n" (topChunks.map ScoredChunk.text)
        Except.ok
          { topChunks := topChunks.map stripEmbedding
            context := context
            question := q }

/-- Success projection of a route response, for comparing the two
implementations. -/
def RouteResponse.success? : RouteResponse → Option RagSuccess
  | RouteResponse.ok body => some body
  | RouteResponse.err _ _ => none

/-- Dot product of two vectors, pairwise products summed over the common
length. -/
def dot (a b : List ℝ) : ℝ :=
  (List.zipWith (fun x y => x * y) a b).sum

/-- Euclidean magnitude of a vector. -/
noncomputable def magnitude (v : List ℝ) : ℝ :=
  Real.sqrt (dot v v)

/-- Modelled from the spec: the `cosineSimilarity` utility imported from
`lib/utils.ts`, whose implementation is not among the provided sources.  The
spec states the contract: "computes cosine similarity — dot product divided
by the product of the two vectors' magnitudes". -/
noncomputable def cosineSimilarity (a b : List ℝ) : ℝ :=
  dot a b / (magnitude a * magnitude b)

/-- Outcome of the chat endpoint's `fetch` of `/api/rag` for one user
message: an ok response whose parsed JSON carries a `context` string, a
non-ok HTTP status, or a thrown error (network failure, JSON parse failure,
or any other exception inside the try block). -/
inductive RagCallOutcome where
  | ok (context : String)
  | notOk (status : Nat)
  | thrown (msg : String)
deriving DecidableEq, Repr

/-- The instructional framing wrapped around a retrieved context before it is
appended to the system prompt (chat route, line 195). -/
def ragInjection (context : String) : String :=
  "\n\nIMPORTANT: Use the following course information to answer the user's " ++
  "question. If the information is relevant to their question, base your " ++
  "answer on this context:\n\n" ++ context ++
  "\n\nWhen answering, reference specific details from the provided " ++
  "course information when applicable."

/-- The body of the chat route's RAG try block (lines 171–209): skip the
call when the trimmed user text is empty; propagate a thrown error; on a
non-ok status or a falsy `ragData.context` leave the context empty; on a
truthy context wrap it with the instructional framing. -/
def ragFetchStep (userMessageText : String) (outcome : RagCallOutcome) :
    Except String String :=
  if userMessageText.trim = "" then Except.ok ""
  else
    match outcome with
    | RagCallOutcome.thrown m => Except.error m
    | RagCallOutcome.notOk _ => Except.ok ""
    | RagCallOutcome.ok ctx =>
        if ctx = "" then Except.ok "" else Except.ok (ragInjection ctx)

/-- The value of `ragContext` after the try/catch (lines 170–212): the catch
only logs, so a thrown error leaves `ragContext` as the initial empty
string. -/
def computeRagContext (userMessageText : String) (outcome : RagCallOutcome) :
    String :=
  match ragFetchStep userMessageText outcome with
  | Except.error _ => ""
  | Except.ok s => s

/-- The `streamText` invocation as far as RAG is concerned: the system
prompt actually passed, and the fact that the call happens. -/
structure StreamCall where
  system : String
  invoked : Bool
deriving DecidableEq, Repr

/-- The chat route reaching `streamText` (lines 219–221): the system prompt
is `systemPrompt(...) + ragContext` and the streaming call is always made —
the RAG try/catch cannot abort the turn. -/
def chatStreamCall (basePrompt userMessageText : String)
    (outcome : RagCallOutcome) : StreamCall :=
  { system := basePrompt ++ computeRagContext userMessageText outcome
    invoked := true }

/-- A RAG call outcome that counts as a retrieval failure: non-ok HTTP status
or a thrown error. -/
def ragCallFailed : RagCallOutcome → Prop
  | RagCallOutcome.ok _ => False
  | RagCallOutcome.notOk _ => True
  | RagCallOutcome.thrown _ => True

/-- The success body computed by the shared success path of both
implementations, once the question is validated, the corpus is loaded and
the query embedding obtained. -/
def ragResult (sim : List ℚ → List ℚ → ℚ) (qe : List ℚ)
    (chunks : List SyllabusChunk) (q : String) (topK : Int) : RagSuccess :=
  let sorted := sortScored (scoreChunks sim qe chunks)
  let top := jsSlice sorted topK
  { topChunks := top.map stripEmbedding
    context := String.intercalate "\n---\n" (top.map ScoredChunk.text)
    question := q }

/-- Concrete corpus chunk used by the witnesses. -/
def chunkA : SyllabusChunk :=
  { chunk_id := 1, text := "alpha", embedding := [1, 0] }

/-- Second concrete corpus chunk used by the witnesses. -/
def chunkB : SyllabusChunk :=
  { chunk_id := 2, text := "beta", embedding := [0, 1] }

/-- A concrete similarity function for the witnesses: the head of the chunk
embedding (the witness corpus embeddings are unit axis vectors, for which
this agrees with the dot product against the query vector `[1, 0]`). -/
def headSim : List ℚ → List ℚ → ℚ := fun _ e => e.headD 0

/-- Dependencies of a healthy run: the corpus file exists with two chunks,
the API credential is configured, and the remote embedding call succeeds. -/
def goodDeps : RagDeps :=
  { corpus := Except.ok [chunkA, chunkB]
    env := { apiKey := some "sk-test" }
    remote := fun _ => Except.ok [1, 0]
    sim := headSim }

/-- Dependencies whose environment has no API credential. -/
def depsNoKey : RagDeps :=
  { corpus := Except.ok [chunkA, chunkB]
    env := { apiKey := none }
    remote := fun _ => Except.ok [1, 0]
    sim := headSim }

/-- Dependencies whose remote embedding call fails. -/
def depsRemoteFail : RagDeps :=
  { corpus := Except.ok [chunkA, chunkB]
    env := { apiKey := some "sk-test" }
    remote := fun _ => Except.error "rate limit exceeded"
    sim := headSim }

/-- Concrete request with a caller-supplied `topK = 1`. -/
def w1req : RagRequest :=
  { question := JsonValue.str "q", topK := some 1 }

/-- The success body a healthy run produces for `w1req` over `goodDeps`. -/
def w1res : RagSuccess :=
  { topChunks := [{ chunk_id := 1, text := "alpha", similarity := 1 }]
    context := "alpha"
    question := "q" }

/-- Concrete request with the `topK` field absent (default 4 applies). -/
def wreq : RagRequest :=
  { question := JsonValue.str "q", topK := none }

theorem simDescLe_trans (a b c : ScoredChunk) :
    simDescLe a b → simDescLe b c → simDescLe a c := by
  simp only [simDescLe, decide_eq_true_eq]
  exact fun h1 h2 => le_trans h2 h1

theorem simDescLe_total (a b : ScoredChunk) : simDescLe a b || simDescLe b a := by
  simp only [simDescLe, Bool.or_eq_true, decide_eq_true_eq]
  exact le_total b.similarity a.similarity

theorem sortScored_pairwise (l : List ScoredChunk) :
    (sortScored l).Pairwise fun a b => b.similarity ≤ a.similarity := by
  have h := List.sorted_mergeSort simDescLe_trans simDescLe_total l
  exact h.imp fun hb => by
    exact of_decide_eq_true hb

theorem sortScored_length (l : List ScoredChunk) :
    (sortScored l).length = l.length := by
  simp [sortScored]

theorem jsSlice_of_nonneg (xs : List ScoredChunk) (k : Int) (h : 0 ≤ k) :
    jsSlice xs k = xs.take k.toNat := by
  unfold jsSlice
  rw [if_pos h]

theorem jsSlice_sublist (xs : List ScoredChunk) (k : Int) :
    (jsSlice xs k).Sublist xs := by
  unfold jsSlice
  split
  · exact List.take_sublist _ _
  · exact List.take_sublist _ _

theorem ragRoutePost_eq_of (deps : RagDeps) (req : RagRequest)
    {q : String} {chunks : List SyllabusChunk} {qe : List ℚ}
    (hq : jsValidQuestion req.question = some q)
    (hc : deps.corpus = Except.ok chunks)
    (he : getEmbedding deps.env deps.remote q = Except.ok qe) :
    ragRoutePost deps req =
      RouteResponse.ok (ragResult deps.sim qe chunks q ((req.topK).getD 4)) := by
  unfold ragRoutePost
  simp only [hq, hc, he]
  rfl

theorem ragRoutePost_ok_elim {deps : RagDeps} {req : RagRequest} {r : RagSuccess}
    (h : ragRoutePost deps req = RouteResponse.ok r) :
    ∃ q chunks qe,
      jsValidQuestion req.question = some q ∧
      deps.corpus = Except.ok chunks ∧
      getEmbedding deps.env deps.remote q = Except.ok qe ∧
      r = ragResult deps.sim qe chunks q ((req.topK).getD 4) := by
  unfold ragRoutePost at h
  split at h
  · exact absurd h (by simp)
  next q hq =>
    split at h
    · exact absurd h (by simp)
    next chunks hc =>
      split at h
      · exact absurd h (by simp)
      next qe he =>
        refine ⟨q, chunks, qe, hq, hc, he, ?_⟩
        cases h
        rfl

theorem ragRoutePost_corpus_err (deps : RagDeps) (req : RagRequest)
    {q m : String}
    (hq : jsValidQuestion req.question = some q)
    (hc : deps.corpus = Except.error m) :
    ragRoutePost deps req = RouteResponse.err m 500 := by
  unfold ragRoutePost
  simp only [hq, hc]

theorem ragRoutePost_embed_err (deps : RagDeps) (req : RagRequest)
    {q m : String} {chunks : List SyllabusChunk}
    (hq : jsValidQuestion req.question = some q)
    (hc : deps.corpus = Except.ok chunks)
    (he : getEmbedding deps.env deps.remote q = Except.error m) :
    ragRoutePost deps req =
      RouteResponse.err "Embedding API not implemented" 500 := by
  unfold ragRoutePost
  simp only [hq, hc, he]

theorem getRAGContext_eq_of (deps : RagDeps) (question : JsonValue)
    (topK : Int) {q : String} {chunks : List SyllabusChunk} {qe : List ℚ}
    (hq : jsValidQuestion question = some q)
    (hc : deps.corpus = Except.ok chunks)
    (he : getEmbedding deps.env deps.remote q = Except.ok qe) :
    getRAGContext deps question topK =
      Except.ok (ragResult deps.sim qe chunks q topK) := by
  unfold getRAGContext
  simp only [hq, hc, he]
  rfl

theorem getRAGContext_corpus_err (deps : RagDeps) (question : JsonValue)
    (topK : Int) {q m : String}
    (hq : jsValidQuestion question = some q)
    (hc : deps.corpus = Except.error m) :
    getRAGContext deps question topK =
      Except.error ("RAG processing failed: " ++ m) := by
  unfold getRAGContext
  simp only [hq, hc]

theorem getRAGContext_embed_err (deps : RagDeps) (question : JsonValue)
    (topK : Int) {q m : String} {chunks : List SyllabusChunk}
    (hq : jsValidQuestion question = some q)
    (hc : deps.corpus = Except.ok chunks)
    (he : getEmbedding deps.env deps.remote q = Except.error m) :
    getRAGContext deps question topK =
      Except.error "RAG processing failed: Failed to get embedding for question" := by
  unfold getRAGContext
  simp only [hq, hc, he]

theorem dot_self_nonneg (v : List ℝ) : 0 ≤ dot v v := by
  induction v with
  | nil => simp [dot]
  | cons x xs ih =>
    have hstep : dot (x :: xs) (x :: xs) = x * x + dot xs xs := by
      simp [dot]
    rw [hstep]
    have hx := mul_self_nonneg x
    linarith

/-- C7: for every vector `v` of nonzero magnitude, the cosine similarity of
`v` with itself — dot product divided by the product of the two magnitudes —
equals 1 (exactly, in the real-number model), so a corpus chunk whose
embedding equals the query embedding scores 1. -/
theorem cosineSimilarity_self_eq_one (v : List ℝ) (h : magnitude v ≠ 0) :
    cosineSimilarity v v = 1 := by
  have hnn := dot_self_nonneg v
  have hne : dot v v ≠ 0 := by
    intro h0
    apply h
    rw [magnitude, h0, Real.sqrt_zero]
  rw [cosineSimilarity, magnitude, Real.mul_self_sqrt hnn]
  exact div_self hne

/-- Witness for C7 at the one-dimensional vector `[1]`. -/
theorem cosineSimilarity_self_eq_one_w :
    magnitude [(1 : ℝ)] ≠ 0 ∧ cosineSimilarity [(1 : ℝ)] [(1 : ℝ)] = 1 := by
  have hd : dot [(1 : ℝ)] [(1 : ℝ)] = 1 := by simp [dot]
  have h : magnitude [(1 : ℝ)] ≠ 0 := by
    rw [magnitude, hd, Real.sqrt_one]
    norm_num
  exact ⟨h, cosineSimilarity_self_eq_one [(1 : ℝ)] h⟩

/-- C6: the ranking is stable — whenever two scored chunks appear in corpus
order (as a two-element sublist of the scored corpus) with equal similarity
scores, they appear in that same order in the sorted ranking. -/
theorem rag_sort_stable_on_ties
    (sim : List ℚ → List ℚ → ℚ) (qe : List ℚ) (chunks : List SyllabusChunk)
    (a b : ScoredChunk)
    (hsub : [a, b].Sublist (scoreChunks sim qe chunks))
    (htie : a.similarity = b.similarity) :
    [a, b].Sublist (sortScored (scoreChunks sim qe chunks)) := by
  apply List.pair_sublist_mergeSort simDescLe_trans simDescLe_total _ hsub
  simp [simDescLe, htie]

/-- Witness for C6: two chunks tied at similarity 0 keep their corpus
order. -/
theorem rag_sort_stable_on_ties_w :
    ([{ chunk_id := 1, text := "alpha", embedding := [1, 0], similarity := 0 },
      { chunk_id := 2, text := "beta", embedding := [0, 1], similarity := 0 }].Sublist
        (scoreChunks (fun _ _ => 0) [] [chunkA, chunkB]) ∧
      ({ chunk_id := 1, text := "alpha", embedding := [1, 0], similarity := 0 } :
        ScoredChunk).similarity =
      ({ chunk_id := 2, text := "beta", embedding := [0, 1], similarity := 0 } :
        ScoredChunk).similarity) ∧
    [{ chunk_id := 1, text := "alpha", embedding := [1, 0], similarity := 0 },
     { chunk_id := 2, text := "beta", embedding := [0, 1], similarity := 0 }].Sublist
      (sortScored (scoreChunks (fun _ _ => 0) [] [chunkA, chunkB])) := by
  have hsub :
      [{ chunk_id := 1, text := "alpha", embedding := [1, 0], similarity := 0 },
       { chunk_id := 2, text := "beta", embedding := [0, 1], similarity := 0 }].Sublist
        (scoreChunks (fun _ _ => 0) [] [chunkA, chunkB]) :=
    List.Sublist.refl _
  exact ⟨⟨hsub, rfl⟩, rag_sort_stable_on_ties (fun _ _ => 0) [] [chunkA, chunkB] _ _ hsub rfl⟩

/-- C4: if the chat endpoint's RAG call fails (non-ok HTTP status or a thrown
error), `ragContext` stays the empty string and the turn still reaches the
`streamText` call with the system prompt unmodified. -/
theorem chat_rag_failure_graceful
    (basePrompt userMessageText : String) (outcome : RagCallOutcome)
    (hfail : ragCallFailed outcome) :
    computeRagContext userMessageText outcome = "" ∧
    chatStreamCall basePrompt userMessageText outcome =
      { system := basePrompt, invoked := true } := by
  have hctx : computeRagContext userMessageText outcome = "" := by
    cases outcome with
    | ok ctx => exact absurd hfail (by simp [ragCallFailed])
    | notOk s =>
        by_cases ht : userMessageText.trim = "" <;>
          simp [computeRagContext, ragFetchStep, ht]
    | thrown m =>
        by_cases ht : userMessageText.trim = "" <;>
          simp [computeRagContext, ragFetchStep, ht]
  refine ⟨hctx, ?_⟩
  simp [chatStreamCall, hctx]

/-- Witness for C4 at a concrete failed RAG call (HTTP 500). -/
theorem chat_rag_failure_graceful_w :
    ragCallFailed (RagCallOutcome.notOk 500) ∧
    (computeRagContext "hi" (RagCallOutcome.notOk 500) = "" ∧
     chatStreamCall "SYS" "hi" (RagCallOutcome.notOk 500) =
       { system := "SYS", invoked := true }) :=
  ⟨True.intro, chat_rag_failure_graceful "SYS" "hi" (RagCallOutcome.notOk 500) True.intro⟩

/-- C3: an empty-string question or a non-string question is rejected with
the invalid-question error — HTTP 400 at the route, the wrapped message from
`getRAGContext` — for every dependency environment, hence before any corpus
load, embedding call or similarity computation. -/
theorem rag_invalid_question_rejected
    (deps : RagDeps) (req : RagRequest) (topK : Int)
    (hbad : req.question = JsonValue.str "" ∨ ∀ s, req.question ≠ JsonValue.str s) :
    ragRoutePost deps req = RouteResponse.err "Missing or invalid question" 400 ∧
    getRAGContext deps req.question topK =
      Except.error "RAG processing failed: Missing or invalid question" := by
  have hv : jsValidQuestion req.question = none := by
    rcases hbad with h | h
    · rw [h]
      simp [jsValidQuestion]
    · cases hq : req.question with
      | str s => exact absurd hq (h s)
      | num n => simp [jsValidQuestion]
      | bool b => simp [jsValidQuestion]
      | null => simp [jsValidQuestion]
  constructor
  · unfold ragRoutePost
    rw [hv]
  · unfold getRAGContext
    rw [hv]

/-- Witness for C3: the empty question is rejected even though the corpus
exists and the API credential is configured. -/
theorem rag_invalid_question_rejected_w :
    (({ question := JsonValue.str "", topK := some 4 } : RagRequest).question =
        JsonValue.str "" ∨
      ∀ s, ({ question := JsonValue.str "", topK := some 4 } : RagRequest).question ≠
        JsonValue.str s) ∧
    (ragRoutePost goodDeps { question := JsonValue.str "", topK := some 4 } =
        RouteResponse.err "Missing or invalid question" 400 ∧
      getRAGContext goodDeps
          ({ question := JsonValue.str "", topK := some 4 } : RagRequest).question 4 =
        Except.error "RAG processing failed: Missing or invalid question") :=
  ⟨Or.inl rfl,
    rag_invalid_question_rejected goodDeps
      { question := JsonValue.str "", topK := some 4 } 4 (Or.inl rfl)⟩

theorem w1run : ragRoutePost goodDeps w1req = RouteResponse.ok w1res := by
  have hs : sortScored (scoreChunks goodDeps.sim [1, 0] [chunkA, chunkB]) =
      scoreChunks goodDeps.sim [1, 0] [chunkA, chunkB] :=
    List.mergeSort_of_sorted (by decide)
  rw [ragRoutePost_eq_of goodDeps w1req rfl rfl rfl]
  unfold ragResult
  rw [hs]
  decide

/-- C1: for a corpus of `N` chunks and a caller-supplied positive `topK = K`,
a successful retrieval's `topChunks` has length exactly `min K N` and is
sorted by similarity non-increasing. -/
theorem rag_topChunks_length_min_sorted
    (deps : RagDeps) (req : RagRequest) (K : Int)
    (chunks : List SyllabusChunk) (r : RagSuccess)
    (hK : req.topK = some K) (hKpos : 0 < K)
    (hc : deps.corpus = Except.ok chunks)
    (h : ragRoutePost deps req = RouteResponse.ok r) :
    r.topChunks.length = min K.toNat chunks.length ∧
    r.topChunks.Pairwise fun a b => b.similarity ≤ a.similarity := by
  obtain ⟨q, chunks', qe, hq, hc', he, hr⟩ := ragRoutePost_ok_elim h
  rw [hc] at hc'
  injection hc' with hcc
  subst hcc
  subst hr
  simp only [hK, Option.getD_some]
  have hlen : (sortScored (scoreChunks deps.sim qe chunks)).length = chunks.length := by
    simp [sortScored, scoreChunks]
  constructor
  · simp only [ragResult, List.length_map]
    rw [jsSlice_of_nonneg _ _ (le_of_lt hKpos), List.length_take, hlen]
  · simp only [ragResult]
    rw [List.pairwise_map]
    exact List.Pairwise.sublist (jsSlice_sublist _ _) (sortScored_pairwise _)

/-- Witness for C1: `topK = 1` over the two-chunk corpus returns exactly one
chunk, sorted. -/
theorem rag_topChunks_length_min_sorted_w :
    (w1req.topK = some 1 ∧ (0 : Int) < 1 ∧
      goodDeps.corpus = Except.ok [chunkA, chunkB] ∧
      ragRoutePost goodDeps w1req = RouteResponse.ok w1res) ∧
    (w1res.topChunks.length = min (Int.toNat 1) [chunkA, chunkB].length ∧
      w1res.topChunks.Pairwise fun a b => b.similarity ≤ a.similarity) :=
  ⟨⟨rfl, by decide, rfl, w1run⟩,
    rag_topChunks_length_min_sorted goodDeps w1req 1 [chunkA, chunkB] w1res rfl
      (by decide) rfl w1run⟩

/-- C2: a successful retrieval's `context` equals the `topChunks` texts
joined with the literal separator, and for a single top chunk it is that
chunk's text with no separator. -/
theorem rag_context_join
    (deps : RagDeps) (req : RagRequest) (r : RagSuccess)
    (h : ragRoutePost deps req = RouteResponse.ok r) :
    r.context = String.intercalate "\n---\n" (r.topChunks.map TopChunk.text) ∧
    ∀ c : TopChunk, r.topChunks = [c] → r.context = c.text := by
  obtain ⟨q, chunks, qe, hq, hc, he, hr⟩ := ragRoutePost_ok_elim h
  subst hr
  constructor
  · simp only [ragResult, List.map_map]
    rfl
  · intro c h1
    simp only [ragResult] at h1 ⊢
    cases htop : jsSlice (sortScored (scoreChunks deps.sim qe chunks))
        ((req.topK).getD 4) with
    | nil =>
        rw [htop] at h1
        simp at h1
    | cons x xs =>
        rw [htop] at h1
        cases xs with
        | nil =>
            simp only [List.map_cons, List.map_nil] at h1
            injection h1 with h2 h3
            subst h2
            rfl
        | cons y ys =>
            simp at h1

/-- Witness for C2: a single top chunk yields a context equal to its text. -/
theorem rag_context_join_w :
    ragRoutePost goodDeps w1req = RouteResponse.ok w1res ∧
    (w1res.context = String.intercalate "\n---\n" (w1res.topChunks.map TopChunk.text) ∧
      ∀ c : TopChunk, w1res.topChunks = [c] → w1res.context = c.text) :=
  ⟨w1run, rag_context_join goodDeps w1req w1res w1run⟩

/-- C8: a successful retrieval's `topChunks` entries are exactly the
embedding-stripped projections `{chunk_id, text, similarity}` of the ranked
truncated chunks, and the `question` field is the caller's original question
string unchanged. -/
theorem rag_result_shape_question
    (deps : RagDeps) (req : RagRequest) (r : RagSuccess) (s : String)
    (chunks : List SyllabusChunk) (qe : List ℚ)
    (hs : req.question = JsonValue.str s)
    (hc : deps.corpus = Except.ok chunks)
    (he : getEmbedding deps.env deps.remote s = Except.ok qe)
    (h : ragRoutePost deps req = RouteResponse.ok r) :
    r.question = s ∧
    r.topChunks =
      (jsSlice (sortScored (scoreChunks deps.sim qe chunks))
        ((req.topK).getD 4)).map stripEmbedding := by
  obtain ⟨q, chunks', qe', hq, hc', he', hr⟩ := ragRoutePost_ok_elim h
  rw [hs] at hq
  by_cases hse : s = ""
  · rw [hse] at hq
    simp [jsValidQuestion] at hq
  · simp only [jsValidQuestion] at hq
    rw [if_neg hse] at hq
    injection hq with hq1
    subst hq1
    rw [hc] at hc'
    injection hc' with hc1
    subst hc1
    rw [he] at he'
    injection he' with he1
    subst he1
    subst hr
    exact ⟨rfl, rfl⟩

/-- Witness for C8 on the concrete healthy run. -/
theorem rag_result_shape_question_w :
    (w1req.question = JsonValue.str "q" ∧
      goodDeps.corpus = Except.ok [chunkA, chunkB] ∧
      getEmbedding goodDeps.env goodDeps.remote "q" = Except.ok [1, 0] ∧
      ragRoutePost goodDeps w1req = RouteResponse.ok w1res) ∧
    (w1res.question = "q" ∧
      w1res.topChunks =
        (jsSlice (sortScored (scoreChunks goodDeps.sim [1, 0] [chunkA, chunkB]))
          ((w1req.topK).getD 4)).map stripEmbedding) :=
  ⟨⟨rfl, rfl, rfl, w1run⟩,
    rag_result_shape_question goodDeps w1req w1res "q" [chunkA, chunkB] [1, 0]
      rfl rfl rfl w1run⟩

/-- C9: for every valid non-empty question and a fixed dependency
environment, the inline route handler and the `getRAGContext` library
function agree on the success path — the success projections of the two
results are equal (both succeed with the same body, or both fail). -/
theorem rag_route_lib_equiv
    (deps : RagDeps) (req : RagRequest) (s : String)
    (hs : req.question = JsonValue.str s) (hne : s ≠ "") :
    (ragRoutePost deps req).success? =
      (getRAGContext deps req.question ((req.topK).getD 4)).toOption := by
  have hv : jsValidQuestion req.question = some s := by
    rw [hs]
    simp [jsValidQuestion, hne]
  cases hc : deps.corpus with
  | error m =>
      rw [ragRoutePost_corpus_err deps req hv hc,
        getRAGContext_corpus_err deps req.question ((req.topK).getD 4) hv hc]
      rfl
  | ok chunks =>
      cases he : getEmbedding deps.env deps.remote s with
      | error m =>
          rw [ragRoutePost_embed_err deps req hv hc he,
            getRAGContext_embed_err deps req.question ((req.topK).getD 4) hv hc he]
          rfl
      | ok qe =>
          rw [ragRoutePost_eq_of deps req hv hc he,
            getRAGContext_eq_of deps req.question ((req.topK).getD 4) hv hc he]
          rfl

/-- Witness for C9 on the concrete healthy run. -/
theorem rag_route_lib_equiv_w :
    (w1req.question = JsonValue.str "q" ∧ "q" ≠ "") ∧
    (ragRoutePost goodDeps w1req).success? =
      (getRAGContext goodDeps w1req.question ((w1req.topK).getD 4)).toOption :=
  ⟨⟨rfl, by decide⟩, rag_route_lib_equiv goodDeps w1req "q" rfl (by decide)⟩

/-- C5 counterexample: one missing-credential run (`depsNoKey`) and one
remote-failure run (`depsRemoteFail`) surface literally identical errors —
HTTP 500 `'Embedding API not implemented'` from the route and the same
wrapped message from `getRAGContext` — so the surfaced errors of the two
runs do not differ in kind. -/
theorem rag_error_kinds_indistinguishable_cex :
    ragRoutePost depsNoKey wreq = ragRoutePost depsRemoteFail wreq ∧
    ragRoutePost depsNoKey wreq =
      RouteResponse.err "Embedding API not implemented" 500 ∧
    getRAGContext depsNoKey (JsonValue.str "q") 4 =
      getRAGContext depsRemoteFail (JsonValue.str "q") 4 ∧
    getRAGContext depsNoKey (JsonValue.str "q") 4 =
      Except.error "RAG processing failed: Failed to get embedding for question" := by
  refine ⟨?_, ?_, ?_, ?_⟩ <;> rfl

/-- C5 amended: a missing API credential and a remote embedding-call failure
are surfaced identically by the pipeline — both as HTTP 500
`'Embedding API not implemented'` from the route and as the single wrapped
embedding-failure message from `getRAGContext` — so the immediate caller
cannot distinguish the two kinds (corpus-load failures are still reported
with a different message). -/
theorem rag_embedding_failures_identical
    (deps : RagDeps) (req : RagRequest) (s : String)
    (chunks : List SyllabusChunk)
    (hs : req.question = JsonValue.str s) (hne : s ≠ "")
    (hc : deps.corpus = Except.ok chunks)
    (hfail : envKeyTruthy deps.env = false ∨
      ∃ m, deps.remote s = Except.error m) :
    ragRoutePost deps req =
      RouteResponse.err "Embedding API not implemented" 500 ∧
    getRAGContext deps req.question ((req.topK).getD 4) =
      Except.error "RAG processing failed: Failed to get embedding for question" := by
  have hv : jsValidQuestion req.question = some s := by
    rw [hs]
    simp [jsValidQuestion, hne]
  obtain ⟨m, he⟩ : ∃ m, getEmbedding deps.env deps.remote s = Except.error m := by
    rcases hfail with hk | ⟨m, hm⟩
    · exact ⟨"OPENAI_API_KEY not set in environment", by simp [getEmbedding, hk]⟩
    · by_cases hk : envKeyTruthy deps.env
      · exact ⟨m, by simp [getEmbedding, hk, hm]⟩
      · exact ⟨"OPENAI_API_KEY not set in environment", by simp [getEmbedding, hk]⟩
  exact ⟨ragRoutePost_embed_err deps req hv hc he,
    getRAGContext_embed_err deps req.question ((req.topK).getD 4) hv hc he⟩

/-- Witness for the amended C5 at the concrete missing-credential run. -/
theorem rag_embedding_failures_identical_w :
    (wreq.question = JsonValue.str "q" ∧ "q" ≠ "" ∧
      depsNoKey.corpus = Except.ok [chunkA, chunkB] ∧
      (envKeyTruthy depsNoKey.env = false ∨
        ∃ m, depsNoKey.remote "q" = Except.error m)) ∧
    (ragRoutePost depsNoKey wreq =
        RouteResponse.err "Embedding API not implemented" 500 ∧
      getRAGContext depsNoKey wreq.question ((wreq.topK).getD 4) =
        Except.error "RAG processing failed: Failed to get embedding for question") :=
  ⟨⟨rfl, by decide, rfl, Or.inl rfl⟩,
    rag_embedding_failures_identical depsNoKey wreq "q" [chunkA, chunkB] rfl
      (by decide) rfl (Or.inl rfl)⟩

/-- C10: `topK` is never validated — with an otherwise-healthy run, a
caller-supplied `topK = 0` succeeds with empty `topChunks` and empty
`context`, and a negative `topK` succeeds and selects all but the last
`|topK|` chunks of the sorted order. -/
theorem rag_topK_unvalidated
    (deps : RagDeps) (s : String) (chunks : List SyllabusChunk) (qe : List ℚ)
    (hne : s ≠ "")
    (hc : deps.corpus = Except.ok chunks)
    (he : getEmbedding deps.env deps.remote s = Except.ok qe) :
    ragRoutePost deps { question := JsonValue.str s, topK := some 0 } =
      RouteResponse.ok { topChunks := [], context := "", question := s } ∧
    ∀ K : Int, K < 0 →
      ragRoutePost deps { question := JsonValue.str s, topK := some K } =
        RouteResponse.ok
          { topChunks :=
              ((sortScored (scoreChunks deps.sim qe chunks)).take
                (chunks.length - (-K).toNat)).map stripEmbedding
            context :=
              String.intercalate "\n---\n"
                (((sortScored (scoreChunks deps.sim qe chunks)).take
                  (chunks.length - (-K).toNat)).map ScoredChunk.text)
            question := s } := by
  have hv : jsValidQuestion (JsonValue.str s) = some s := by
    simp [jsValidQuestion, hne]
  have hlen : (sortScored (scoreChunks deps.sim qe chunks)).length = chunks.length := by
    simp [sortScored, scoreChunks]
  constructor
  · rw [ragRoutePost_eq_of deps { question := JsonValue.str s, topK := some 0 } hv hc he]
    rfl
  · intro K hK
    rw [ragRoutePost_eq_of deps { question := JsonValue.str s, topK := some K } hv hc he]
    have hslice : jsSlice (sortScored (scoreChunks deps.sim qe chunks)) K =
        (sortScored (scoreChunks deps.sim qe chunks)).take
          (chunks.length - (-K).toNat) := by
      unfold jsSlice
      rw [if_neg (by omega), hlen]
    simp only [ragResult, Option.getD_some]
    rw [hslice]

/-- Witness for C10: `topK = 0` and `topK = -1` on the concrete healthy
run. -/
theorem rag_topK_unvalidated_w :
    ("q" ≠ "" ∧ goodDeps.corpus = Except.ok [chunkA, chunkB] ∧
      getEmbedding goodDeps.env goodDeps.remote "q" = Except.ok [1, 0]) ∧
    ragRoutePost goodDeps { question := JsonValue.str "q", topK := some 0 } =
      RouteResponse.ok { topChunks := [], context := "", question := "q" } ∧
    ragRoutePost goodDeps { question := JsonValue.str "q", topK := some (-1) } =
      RouteResponse.ok
        { topChunks :=
            ((sortScored (scoreChunks goodDeps.sim [1, 0] [chunkA, chunkB])).take
              ([chunkA, chunkB].length - (-(-1 : Int)).toNat)).map stripEmbedding
          context :=
            String.intercalate "\n---\n"
              (((sortScored (scoreChunks goodDeps.sim [1, 0] [chunkA, chunkB])).take
                ([chunkA, chunkB].length - (-(-1 : Int)).toNat)).map ScoredChunk.text)
          question := "q" } := by
  have h := rag_topK_unvalidated goodDeps "q" [chunkA, chunkB] [1, 0]
    (by decide) rfl rfl
  exact ⟨⟨by decide, rfl, rfl⟩, h.1, h.2 (-1) (by decide)⟩
